import Mathlib

/-!
Verification development for the GCS object-migration engine
(`google-cloud-storage-file-archiver/main.py`).

The embedding models the pure control flow of the source:
machine time and wall-clock deadlines are abstracted as boolean oracles,
remote GCS calls as explicit result values (`Except`: `.error` means the
Python call raised), and blob iterators as finite lists (pages concatenated
in iteration order).  Counters over thread-pool completion order are
order-independent (they are sums), so the model consumes results in
submission order.
-/

namespace Archiver

-- ---------------------------------------------------------
-- GLOBAL CONFIGURATION (main.py lines 22-28)
-- ---------------------------------------------------------

def MAX_WORKERS : Nat := 90

def MAX_API_RETRIES : Nat := 4

def INITIAL_BACKOFF_SECONDS : ℚ := 3 / 2

def TARGET_SOURCE_STORAGE_CLASS : String := "COLDLINE"

def MIN_AGE_DAYS_THRESHOLD : Int := 90

-- ---------------------------------------------------------
-- DATA MODEL
-- ---------------------------------------------------------

/-- Object metadata as listed: `fields="items(name,updated,storageClass)"`.
`updated` is a timestamp in days (the only uses are day-granularity age
comparisons); `none` models an unknown last-modified time.  `storage_class`
is `none` when the attribute is absent (`getattr(blob, 'storage_class', None)`). -/
structure Blob where
  name : String
  updated : Option Int
  storage_class : Option String
deriving DecidableEq, Repr

/-- Run summary counters (main.py line 165). -/
structure Summary where
  copied : Nat
  verified : Nat
  deleted : Nat
  failed : Nat
deriving DecidableEq, Repr

-- ---------------------------------------------------------
-- CONFIG PARSING: the age-threshold guard (main.py lines 141-145)
-- ---------------------------------------------------------

/-- Embeds lines 141-145: `min_age_timedelta` is set only when the payload
value is truthy (Python: `None` and `0` are falsy) and strictly exceeds
`MIN_AGE_DAYS_THRESHOLD`; otherwise no age filter is applied.
The resulting threshold is kept in days. -/
def computeMinAge (min_age_days_for_transfer : Option Int) : Option Int :=
  match min_age_days_for_transfer with
  | none => none
  | some d =>
    if d ≠ 0 then
      if MIN_AGE_DAYS_THRESHOLD < d then some d else none
    else none

-- ---------------------------------------------------------
-- ELIGIBILITY FILTER (main.py lines 84-94)
-- ---------------------------------------------------------

/-- Kernel-reducible prefix test on character lists (Lean's byte-position
`String` primitives do not reduce in the kernel): `charsStartWith cs ds`
iff `ds` is an initial segment of `cs`. -/
def charsStartWith : List Char → List Char → Bool
  | _, [] => true
  | [], _ :: _ => false
  | c :: cs, d :: ds => c = d && charsStartWith cs ds

/-- Python `str.startswith` on full strings. -/
def strStartsWith (s pat : String) : Bool :=
  charsStartWith s.data pat.data

/-- Python `str.endswith` on full strings. -/
def strEndsWith (s pat : String) : Bool :=
  charsStartWith s.data.reverse pat.data.reverse

/-- `os.path.basename`: the part of the name after the last `/`. -/
def basename (s : String) : String :=
  ⟨(s.data.reverse.takeWhile (fun c => c != '/')).reverse⟩

/-- Embeds the filter body of `filter_blobs` (lines 84-94): the four
`continue` guards, in source order.  A blob is kept iff none of the guards
fires.  `ps` is the configured `prefixes` list, `minAge` the already-parsed
`min_age_timedelta` (in days), `now` the current time in days. -/
def keepBlob (ps : List String) (minAge : Option Int) (now : Int) (b : Blob) : Bool :=
  if strEndsWith b.name "/" then false
  else if !decide (ps = [""]) && !(ps.any fun p => strStartsWith (basename b.name) p) then false
  else if (match minAge with
           | some d => b.updated.elim true (fun u => decide (now - u < d))
           | none => false) then false
  else if !decide (b.storage_class = some TARGET_SOURCE_STORAGE_CLASS) then false
  else true

/-- Modelled from the spec: filter rule 1 — the object name does not denote a
folder placeholder (no trailing path separator). -/
def spec_rule1 (b : Blob) : Bool :=
  !(strEndsWith b.name "/")

/-- Modelled from the spec: filter rule 2 — unless the prefix list is the
match-all sentinel, the base filename starts with at least one configured
prefix. -/
def spec_rule2 (ps : List String) (b : Blob) : Bool :=
  if ps = [""] then true
  else ps.any fun p => strStartsWith (basename b.name) p

/-- Modelled from the spec: filter rule 3 — if a minimum age is in effect,
last-modified is known and `now - lastModified` is at least that age. -/
def spec_rule3 (minAge : Option Int) (now : Int) (b : Blob) : Bool :=
  match minAge with
  | none => true
  | some d =>
    match b.updated with
    | none => false
    | some u => decide (d ≤ now - u)

/-- Modelled from the spec: filter rule 4 — the storage tier equals the
target tier exactly (case-sensitive string equality). -/
def spec_rule4 (b : Blob) : Bool :=
  decide (b.storage_class = some TARGET_SOURCE_STORAGE_CLASS)

-- ---------------------------------------------------------
-- RETRY EXECUTORS (main.py lines 53-67 and 211-240)
-- ---------------------------------------------------------

/-- Outcome of one attempt of a remote GCS call: success, an exception from
the designated transient set (429/500/502/503/504), or any other
exception. -/
inductive CallResult (α : Type) where
  | ok (a : α)
  | transient (e : String)
  | fatal (e : String)
deriving DecidableEq, Repr

/-- Trace of one run of a retry wrapper: how many times the wrapped
operation was invoked, the backoff sleeps taken (in order, in seconds), and
the returned value (`.error e` = the wrapper re-raised exception `e`). -/
structure RetryTrace (α : Type) where
  attempts : Nat
  waits : List ℚ
  result : Except String α
deriving Repr

/-- Loop body of `_retry_gcs_operation` (lines 220-240), iterating over the
pending attempt indices (`for attempt in range(MAX_API_RETRIES)`), with the
current `backoff` and the sleeps taken so far in reverse order.  A
transient error sleeps and retries while `attempt < MAX_API_RETRIES - 1`
(for a range-generated index list: while further indices remain) and
re-raises on the last attempt; any other exception re-raises at once. -/
def retryGcsFrom (behavior : Nat → CallResult α) :
    List Nat → ℚ → List ℚ → RetryTrace α
  | [], _, waits => ⟨0, waits.reverse, .error "empty range"⟩
  | attempt :: rest, backoff, waits =>
    match behavior attempt with
    | .ok a => ⟨attempt + 1, waits.reverse, .ok a⟩
    | .fatal e => ⟨attempt + 1, waits.reverse, .error e⟩
    | .transient e =>
      match rest with
      | [] => ⟨attempt + 1, waits.reverse, .error e⟩
      | next :: rest2 =>
        retryGcsFrom behavior (next :: rest2) (backoff * 2) (backoff :: waits)

/-- Embeds `_retry_gcs_operation` (lines 211-240): the attempt behavior is
abstracted as a function from attempt index to that attempt's outcome. -/
def _retry_gcs_operation (behavior : Nat → CallResult α) : RetryTrace α :=
  retryGcsFrom behavior (List.range MAX_API_RETRIES) INITIAL_BACKOFF_SECONDS []

/-- Loop body of `_retry_blob_listing` (lines 55-67).  Unlike
`_retry_gcs_operation`, its `except Exception` clause catches every
exception, so transient and non-transient failures are retried alike. -/
def retryListingFrom (behavior : Nat → CallResult α) :
    List Nat → ℚ → List ℚ → RetryTrace α
  | [], _, waits => ⟨0, waits.reverse, .error "empty range"⟩
  | attempt :: rest, backoff, waits =>
    match behavior attempt with
    | .ok a => ⟨attempt + 1, waits.reverse, .ok a⟩
    | .transient e | .fatal e =>
      match rest with
      | [] => ⟨attempt + 1, waits.reverse, .error e⟩
      | next :: rest2 =>
        retryListingFrom behavior (next :: rest2) (backoff * 2) (backoff :: waits)

/-- Embeds the retry discipline of `_retry_blob_listing` (lines 53-67). -/
def _retry_blob_listing (behavior : Nat → CallResult α) : RetryTrace α :=
  retryListingFrom behavior (List.range MAX_API_RETRIES) INITIAL_BACKOFF_SECONDS []

-- ---------------------------------------------------------
-- TRANSFER WORKER (main.py lines 243-279)
-- ---------------------------------------------------------

/-- Remote operations issued by `process_single_file_copy_or_move`, in
issue order.  `deleteSourceBlob` records the value of the local `verified`
flag at the moment the delete call is issued. -/
inductive Event where
  | getSourceBlob
  | copyBlob
  | getDestBlob
  | deleteSourceBlob (verified : Bool)
deriving DecidableEq, Repr

/-- Environment of one worker run: the overall result of each (retried)
remote call the worker can make.  `.error e` means the call raised
(retries exhausted or a fatal error); for the two `get_blob` calls `.ok b`
gives presence of the blob. -/
structure TransferWorld where
  sourceCheck : Except String Bool
  copyOp : Except String Unit
  destCheck : Except String Bool
  deleteOp : Except String Unit

/-- Embeds `process_single_file_copy_or_move` (lines 243-279), returning
the trace of issued remote calls and the worker's result:
`.error e` = the function raised `e` (only the existence re-check is
outside the `try`), `.ok (success, copied, verified, deleted)` = the
returned 4-tuple.  In the delete branch the local `verified` flag is
necessarily `true`: the verify step either set it or raised. -/
def process_single_file_copy_or_move (w : TransferWorld) (delete_source : Bool) :
    List Event × Except String (Bool × Nat × Nat × Nat) :=
  match w.sourceCheck with
  | .error e => ([.getSourceBlob], .error e)
  | .ok false =>
    -- "Skipping ...: No longer exists at time of processing."
    ([.getSourceBlob], .ok (false, 0, 0, 0))
  | .ok true =>
    match w.copyOp with
    | .error _ => ([.getSourceBlob, .copyBlob], .ok (false, 0, 0, 0))
    | .ok _ =>
      -- copied = True
      match w.destCheck with
      | .error _ => ([.getSourceBlob, .copyBlob, .getDestBlob], .ok (false, 0, 0, 0))
      | .ok false =>
        -- raise "Destination blob not found after copy" (caught at line 277)
        ([.getSourceBlob, .copyBlob, .getDestBlob], .ok (false, 0, 0, 0))
      | .ok true =>
        -- verified = True
        if delete_source then
          match w.deleteOp with
          | .error _ =>
            ([.getSourceBlob, .copyBlob, .getDestBlob, .deleteSourceBlob true],
             .ok (false, 0, 0, 0))
          | .ok _ =>
            ([.getSourceBlob, .copyBlob, .getDestBlob, .deleteSourceBlob true],
             .ok (true, 1, 1, 1))
        else
          ([.getSourceBlob, .copyBlob, .getDestBlob], .ok (true, 1, 1, 0))

-- ---------------------------------------------------------
-- PARALLEL LISTER (main.py lines 69-112)
-- ---------------------------------------------------------

/-- The `bucket.list_blobs(fields="items(name,updated,storageClass),nextPageToken")`
call issued inside `_retry_blob_listing` (line 59), with all pages
concatenated in iteration order.  Note: the source does NOT pass its
`prefix` argument to `list_blobs`, so the call returns every object in the
bucket regardless of which per-prefix listing task issued it; `_pfx` is
kept only for log messages. -/
def list_blobs (bucket : List Blob) (_pfx : Option String) : List Blob :=
  bucket

/-- Embeds `generate_eligible_blobs` (lines 69-112) in the run where every
listing call succeeds and the deadline is never breached.  With the
match-all sentinel the bucket is listed once; otherwise one listing task is
submitted per prefix (each calling `list_blobs` with its prefix — which
`list_blobs` ignores) and each task's results are filtered with
`filter_blobs`, which tests against the FULL prefix list.  Task results are
merged in submission order (completion order is unspecified in the source;
the multiset of yielded blobs is order-independent). -/
def generate_eligible_blobs (bucket : List Blob) (ps : List String)
    (minAge : Option Int) (now : Int) : List Blob :=
  if ps = [""] then
    (list_blobs bucket none).filter (keepBlob ps minAge now)
  else
    ps.flatMap fun p => (list_blobs bucket (some p)).filter (keepBlob ps minAge now)

/-- Deadline-aware `filter_blobs` (lines 76-96).  `sc n` is the value the
`should_continue()` poll returns the `n`-th time it is called; `k` is the
index of the next poll.  One poll happens per listed blob, before any
filter is applied; a `false` poll abandons the rest of the iterator.
Returns the next poll index and the yielded blobs. -/
def filter_blobs (sc : Nat → Bool) (ps : List String) (minAge : Option Int)
    (now : Int) : Nat → List Blob → Nat × List Blob
  | k, [] => (k, [])
  | k, b :: rest =>
    if !(sc k) then (k + 1, [])
    else
      let r := filter_blobs sc ps minAge now (k + 1) rest
      (r.1, if keepBlob ps minAge now b then b :: r.2 else r.2)

/-- What one run of the Lister did: which per-prefix listing tasks were
submitted to the lister pool, and which blobs were yielded. -/
structure ListerRun where
  startedTasks : List String
  yielded : List Blob
deriving DecidableEq, Repr

/-- Consuming one completed listing task's result (line 110,
`yield from filter_blobs(future.result())`): continue the poll counter
where the previous task's consumption left it and append the yielded
blobs. -/
def listerStep (sc : Nat → Bool) (bucket : List Blob) (ps : List String)
    (minAge : Option Int) (now : Int) (acc : Nat × List Blob) (p : String) :
    Nat × List Blob :=
  let r := filter_blobs sc ps minAge now acc.1 (list_blobs bucket (some p))
  (r.1, acc.2 ++ r.2)

/-- Embeds `generate_eligible_blobs` with the deadline oracle `sc` made
explicit.  In the multi-prefix branch the source submits one task per
prefix in a dict comprehension (lines 104-107) with no `should_continue`
consultation, so `startedTasks` is the whole prefix list regardless of
`sc`; the `should_continue` polls all happen inside `filter_blobs`,
threaded here through the tasks in merge order. -/
def generate_eligible_blobs_timed (sc : Nat → Bool) (bucket : List Blob)
    (ps : List String) (minAge : Option Int) (now : Int) : ListerRun :=
  if ps = [""] then
    { startedTasks := []
      yielded := (filter_blobs sc ps minAge now 0 (list_blobs bucket none)).2 }
  else
    { startedTasks := ps
      yielded := (ps.foldl (listerStep sc bucket ps minAge now) (0, [])).2 }

-- ---------------------------------------------------------
-- MIGRATION COORDINATOR (main.py lines 114-204)
-- ---------------------------------------------------------

/-- One iteration of the result-aggregation loop (lines 183-195): a raised
worker exception or a returned `success=False` outcome increments `failed`;
a `success=True` outcome adds its `copied`/`verified`/`deleted` flags to
the counters. -/
def aggStep (acc : Summary) (r : Except String (Bool × Nat × Nat × Nat)) : Summary :=
  match r with
  | .error _ => { acc with failed := acc.failed + 1 }
  | .ok (success, c, v, d) =>
    if success then
      { acc with copied := acc.copied + c, verified := acc.verified + v,
                 deleted := acc.deleted + d }
    else { acc with failed := acc.failed + 1 }

/-- Embeds the result-aggregation loop (lines 175-195) in the run where the
deadline is never breached, starting from the all-zero counters of
line 165. -/
def aggregate_outcomes (rs : List (Except String (Bool × Nat × Nat × Nat))) : Summary :=
  rs.foldl aggStep ⟨0, 0, 0, 0⟩

/-- Embeds the body of `direct_copy_or_move` (lines 114-204) after payload
validation, for runs where every listing call succeeds and the deadline is
never breached: parse the age threshold, materialize the eligible-blob
list, run the Transfer Worker on each blob (its remote-call environment
given by `worldOf`), and aggregate the outcomes.  Completion order is
modelled as submission order; the counters are order-independent sums. -/
def direct_copy_or_move (bucket : List Blob) (worldOf : Blob → TransferWorld)
    (ps : List String) (min_age_days_for_transfer : Option Int)
    (delete_source_after_transfer : Bool) (now : Int) : Summary :=
  let minAge := computeMinAge min_age_days_for_transfer
  let blobs_to_process := generate_eligible_blobs bucket ps minAge now
  aggregate_outcomes
    (blobs_to_process.map fun b =>
      (process_single_file_copy_or_move (worldOf b) delete_source_after_transfer).2)

-- ---------------------------------------------------------
-- CONCRETE ENVIRONMENTS (inputs for scenarios, witnesses and counterexamples)
-- ---------------------------------------------------------

/-- Every remote call succeeds and both existence checks find the blob. -/
def worldAllOk : TransferWorld :=
  ⟨.ok true, .ok (), .ok true, .ok ()⟩

/-- The pre-transfer existence re-check finds the source blob gone. -/
def worldVanished : TransferWorld :=
  ⟨.ok false, .ok (), .ok true, .ok ()⟩

/-- The copy call reports success but the post-copy destination check
finds the destination blob absent. -/
def worldVerifyMiss : TransferWorld :=
  ⟨.ok true, .ok (), .ok false, .ok ()⟩

/-- An eligible (COLDLINE) blob named `n`, last modified at day 0. -/
def coldBlob (n : String) : Blob :=
  ⟨n, some 0, some "COLDLINE"⟩

/-- An ineligible blob in the wrong storage tier. -/
def standardBlob (n : String) : Blob :=
  ⟨n, some 0, some "STANDARD"⟩

/-- Source bucket of end-to-end scenario 2: 3 eligible objects and 2 in the
wrong storage tier. -/
def scenario2Bucket : List Blob :=
  [coldBlob "e1", coldBlob "e2", coldBlob "e3", standardBlob "i1", standardBlob "i2"]

/-- Remote-call environment of scenario 2: exactly one object's post-copy
destination verification returns absent; all other calls succeed. -/
def scenario2World (b : Blob) : TransferWorld :=
  if b.name = "e2" then worldVerifyMiss else worldAllOk

/-- A one-object bucket used to exhibit the duplicate-listing slip: the
object is eligible and its base filename starts with `"a"`. -/
def dupBucket : List Blob :=
  [coldBlob "afile"]

/-- Operation behavior that fails transiently on attempts 0-2 and succeeds
on attempt 3. -/
def behTransientThenOk : Nat → CallResult Nat :=
  fun i => if i < 3 then .transient "503 Service Unavailable" else .ok 7

/-- Operation behavior that fails transiently on every attempt. -/
def behAlwaysTransient : Nat → CallResult Nat :=
  fun _ => .transient "429 Too Many Requests"

/-- Operation behavior that fails with a non-transient error on every
attempt (e.g. a permission error). -/
def behFatal : Nat → CallResult Nat :=
  fun _ => .fatal "403 Forbidden"

/-- Listing behavior that fails with a non-transient error on every
attempt. -/
def behFatalListing : Nat → CallResult (List Blob) :=
  fun _ => .fatal "403 Forbidden"

/-- Constant error-message family for the always-transient behavior. -/
def esAlwaysTransient : Nat → String :=
  fun _ => "429 Too Many Requests"

/-- Constant error-message family for the always-fatal listing behavior. -/
def esFatal : Nat → String :=
  fun _ => "403 Forbidden"

-- ---------------------------------------------------------
-- HELPER LEMMAS
-- ---------------------------------------------------------

/-- Once a `should_continue` poll returns `false`, `filter_blobs` abandons
the iterator: nothing at all is yielded from it. -/
theorem filter_blobs_abandons (sc : Nat → Bool) (ps : List String)
    (minAge : Option Int) (now : Int) (k : Nat) (blobs : List Blob)
    (h : sc k = false) : (filter_blobs sc ps minAge now k blobs).2 = [] := by
  cases blobs with
  | nil => rfl
  | cons b rest => simp [filter_blobs, h]

/-- If the deadline oracle is `false` at every poll, the per-prefix merge
loop accumulates nothing beyond what it started with. -/
theorem listerStep_foldl_nil (sc : Nat → Bool) (bucket : List Blob)
    (ps : List String) (minAge : Option Int) (now : Int)
    (h : ∀ n, sc n = false) :
    ∀ (tasks : List String) (acc : Nat × List Blob),
      (tasks.foldl (listerStep sc bucket ps minAge now) acc).2 = acc.2 := by
  intro tasks
  induction tasks with
  | nil => intro acc; rfl
  | cons p rest ih =>
    intro acc
    have hstep : (listerStep sc bucket ps minAge now acc p).2 = acc.2 := by
      simp [listerStep, filter_blobs_abandons sc ps minAge now acc.1 _ (h acc.1)]
    rw [List.foldl_cons, ih (listerStep sc bucket ps minAge now acc p), hstep]

/-- Every worker run either raises, returns the benign-skip/failure tuple,
or returns one of the two success tuples. -/
theorem worker_outcome_cases (w : TransferWorld) (ds : Bool) :
    (process_single_file_copy_or_move w ds).2 = .ok (false, 0, 0, 0) ∨
    (process_single_file_copy_or_move w ds).2 = .ok (true, 1, 1, 1) ∨
    (process_single_file_copy_or_move w ds).2 = .ok (true, 1, 1, 0) ∨
    ∃ e, (process_single_file_copy_or_move w ds).2 = .error e := by
  rcases w with ⟨se | (_ | _), ce | ⟨⟩, de | (_ | _), ee | ⟨⟩⟩ <;> cases ds <;>
    simp [process_single_file_copy_or_move]

/-- `aggStep` preserves `copied = verified` and `deleted ≤ verified` when
fed any outcome a worker can produce. -/
theorem aggStep_preserves (acc : Summary) (w : TransferWorld) (ds : Bool)
    (h1 : acc.copied = acc.verified) (h2 : acc.deleted ≤ acc.verified) :
    (aggStep acc (process_single_file_copy_or_move w ds).2).copied =
        (aggStep acc (process_single_file_copy_or_move w ds).2).verified ∧
      (aggStep acc (process_single_file_copy_or_move w ds).2).deleted ≤
        (aggStep acc (process_single_file_copy_or_move w ds).2).verified := by
  rcases worker_outcome_cases w ds with h | h | h | ⟨e, h⟩ <;>
    rw [h] <;> simp [aggStep] <;> omega

/-- Folding worker outcomes with `aggStep` preserves the two counter
invariants from any starting accumulator satisfying them. -/
theorem aggStep_foldl_preserves (runs : List (TransferWorld × Bool)) :
    ∀ (acc : Summary), acc.copied = acc.verified → acc.deleted ≤ acc.verified →
      (runs.foldl (fun a r => aggStep a (process_single_file_copy_or_move r.1 r.2).2) acc).copied =
          (runs.foldl (fun a r => aggStep a (process_single_file_copy_or_move r.1 r.2).2) acc).verified ∧
        (runs.foldl (fun a r => aggStep a (process_single_file_copy_or_move r.1 r.2).2) acc).deleted ≤
          (runs.foldl (fun a r => aggStep a (process_single_file_copy_or_move r.1 r.2).2) acc).verified := by
  induction runs with
  | nil => intro acc h1 h2; exact ⟨h1, h2⟩
  | cons r rest ih =>
    intro acc h1 h2
    have := aggStep_preserves acc r.1 r.2 h1 h2
    exact ih _ this.1 this.2

-- ---------------------------------------------------------
-- CLAIM THEOREMS
-- ---------------------------------------------------------

/-- Claim C1: in every execution of the per-object transfer state machine,
at the moment the delete operation is issued the `verified` flag is `true`
(`deleted=true` implies `verified=true`): every delete event in the
worker's remote-call trace carries `verified = true`. -/
theorem C1_deletion_requires_verified (w : TransferWorld) (ds : Bool) (v : Bool)
    (h : Event.deleteSourceBlob v ∈ (process_single_file_copy_or_move w ds).1) :
    v = true := by
  rcases w with ⟨se | (_ | _), ce | ⟨⟩, de | (_ | _), ee | ⟨⟩⟩ <;> cases ds <;>
    simp_all [process_single_file_copy_or_move]

/-- Witness for C1 at a concrete transfer in which the delete is issued. -/
theorem C1_deletion_requires_verified_witness :
    Event.deleteSourceBlob true ∈ (process_single_file_copy_or_move worldAllOk true).1 ∧
      true = true :=
  ⟨by decide, C1_deletion_requires_verified worldAllOk true true (by decide)⟩

/-- Claim C2 is false as stated: a run whose only eligible object vanished
between listing and transfer ends with `failed = 1`, so the benign race IS
counted toward the run summary's failed counter. -/
theorem C2_claim_counterexample :
    direct_copy_or_move [coldBlob "v"] (fun _ => worldVanished) [""] none false 0 =
      ⟨0, 0, 0, 1⟩ := by
  decide

/-- Claim C2 amended: an object that vanished between listing and transfer
is handled without raising — the worker returns `{success=false, all flags
0}` after only the existence re-check — but the coordinator increments the
`failed` counter for this outcome exactly as for any other failure. -/
theorem C2_benign_skip_increments_failed (w : TransferWorld) (ds : Bool)
    (h : w.sourceCheck = .ok false) :
    (process_single_file_copy_or_move w ds).2 = .ok (false, 0, 0, 0) ∧
      (process_single_file_copy_or_move w ds).1 = [.getSourceBlob] ∧
      aggregate_outcomes [(process_single_file_copy_or_move w ds).2] = ⟨0, 0, 0, 1⟩ := by
  rcases w with ⟨se, ce, de, ee⟩
  cases h
  simp [process_single_file_copy_or_move, aggregate_outcomes, aggStep]

/-- Witness for the amended C2 at the concrete vanished-object world. -/
theorem C2_benign_skip_increments_failed_witness :
    (process_single_file_copy_or_move worldVanished false).2 = .ok (false, 0, 0, 0) ∧
      (process_single_file_copy_or_move worldVanished false).1 = [.getSourceBlob] ∧
      aggregate_outcomes [(process_single_file_copy_or_move worldVanished false).2] =
        ⟨0, 0, 0, 1⟩ :=
  C2_benign_skip_increments_failed worldVanished false rfl

/-- Claim C3 concerns a code bug: with prefixes `["a", "b"]` and a bucket
holding the single eligible object `"afile"`, the Lister yields the object
TWICE — each per-prefix listing task lists the whole bucket (the source
never passes its prefix to `list_blobs`) and filters against the full
prefix list — contradicting the claim that every eligible object appears
at most once in the merged sequence. -/
theorem C3_duplicate_listing :
    generate_eligible_blobs dupBucket ["a", "b"] none 0 =
        [coldBlob "afile", coldBlob "afile"] ∧
      (generate_eligible_blobs dupBucket ["a", "b"] none 0).count (coldBlob "afile") = 2 := by
  decide

/-- Claim C4 is false as stated: in end-to-end scenario 2 the object whose
post-copy verification fails contributes no partial `copied` credit (its
worker returns `{success=false, all flags 0}`), so the summary's `copied`
is 2, not 3. -/
theorem C4_claim_counterexample :
    direct_copy_or_move scenario2Bucket scenario2World [""] none true 0 ≠
      ⟨3, 2, 2, 1⟩ := by
  decide

/-- Claim C4 amended: end-to-end scenario 2 — 3 eligible and 2 wrong-tier
objects, `delete_source_after_transfer = true`, exactly one object's
post-copy verification returning absent — yields the run summary
`{copied:2, verified:2, deleted:2, failed:1}`. -/
theorem C4_scenario2_summary :
    direct_copy_or_move scenario2Bucket scenario2World [""] none true 0 =
      ⟨2, 2, 2, 1⟩ := by
  decide

/-- Claim C5 is false as stated: a list fetch that keeps failing with a
NON-transient error is attempted 4 times with 3 backoff waits — the
listing retry wrapper's catch-all clause retries every failure kind. -/
theorem C5_claim_counterexample :
    (_retry_blob_listing behFatalListing).attempts = 4 ∧
      (_retry_blob_listing behFatalListing).attempts ≠ 1 ∧
      (_retry_blob_listing behFatalListing).waits =
        [INITIAL_BACKOFF_SECONDS, INITIAL_BACKOFF_SECONDS * 2,
         INITIAL_BACKOFF_SECONDS * 2 * 2] :=
  ⟨rfl, by decide, rfl⟩

/-- Claim C5 amended: remote calls made through `_retry_gcs_operation`
(existence check, copy, verify, delete) fail immediately on a
non-transient failure — exactly 1 attempt, no backoff wait; but the
listing call's own retry wrapper (`_retry_blob_listing`) retries ANY
failure, non-transient included, up to 4 attempts with 3 backoff waits
before re-raising. -/
theorem C5_fail_fast_transfer_path_only :
    (∀ (α : Type) (behavior : Nat → CallResult α) (e : String),
        behavior 0 = .fatal e →
        _retry_gcs_operation behavior = ⟨1, [], .error e⟩) ∧
    (∀ (α : Type) (behavior : Nat → CallResult α) (es : Nat → String),
        (∀ i, behavior i = .fatal (es i)) →
        _retry_blob_listing behavior =
          ⟨4, [INITIAL_BACKOFF_SECONDS, INITIAL_BACKOFF_SECONDS * 2,
               INITIAL_BACKOFF_SECONDS * 2 * 2], .error (es 3)⟩) := by
  constructor
  · intro α behavior e h
    rw [show _retry_gcs_operation behavior
          = retryGcsFrom behavior [0, 1, 2, 3] INITIAL_BACKOFF_SECONDS [] from rfl]
    simp only [retryGcsFrom, h, List.reverse_nil]
  · intro α behavior es h
    rw [show _retry_blob_listing behavior
          = retryListingFrom behavior [0, 1, 2, 3] INITIAL_BACKOFF_SECONDS [] from rfl]
    simp only [retryListingFrom, h 0, h 1, h 2, h 3, List.reverse_cons,
      List.reverse_nil, List.nil_append, List.cons_append]

/-- Witness for the amended C5 at concrete behaviors: a single fatal
attempt through the transfer-path wrapper, and an always-fatal listing. -/
theorem C5_fail_fast_transfer_path_only_witness :
    _retry_gcs_operation behFatal = ⟨1, [], .error "403 Forbidden"⟩ ∧
      _retry_blob_listing behFatalListing =
        ⟨4, [INITIAL_BACKOFF_SECONDS, INITIAL_BACKOFF_SECONDS * 2,
             INITIAL_BACKOFF_SECONDS * 2 * 2], .error (esFatal 3)⟩ :=
  ⟨C5_fail_fast_transfer_path_only.1 Nat behFatal "403 Forbidden" rfl,
   C5_fail_fast_transfer_path_only.2 (List Blob) behFatalListing esFatal (fun _ => rfl)⟩

/-- Claim C6: the Retry Executor, given an operation failing transiently on
attempts 1-3 and succeeding on attempt 4, returns the success after
exactly 3 backoff waits — the first of 1.5 seconds, each subsequent wait
double the previous; given an always-transiently-failing operation, makes
exactly 4 attempts and re-raises the last transient failure. -/
theorem C6_retry_executor_backoff :
    INITIAL_BACKOFF_SECONDS = 3 / 2 ∧
    (∀ (α : Type) (behavior : Nat → CallResult α) (e0 e1 e2 : String) (a : α),
        behavior 0 = .transient e0 → behavior 1 = .transient e1 →
        behavior 2 = .transient e2 → behavior 3 = .ok a →
        _retry_gcs_operation behavior =
          ⟨4, [INITIAL_BACKOFF_SECONDS, INITIAL_BACKOFF_SECONDS * 2,
               INITIAL_BACKOFF_SECONDS * 2 * 2], .ok a⟩) ∧
    (∀ (α : Type) (behavior : Nat → CallResult α) (es : Nat → String),
        (∀ i, behavior i = .transient (es i)) →
        _retry_gcs_operation behavior =
          ⟨4, [INITIAL_BACKOFF_SECONDS, INITIAL_BACKOFF_SECONDS * 2,
               INITIAL_BACKOFF_SECONDS * 2 * 2], .error (es 3)⟩) := by
  refine ⟨rfl, ?_, ?_⟩
  · intro α behavior e0 e1 e2 a h0 h1 h2 h3
    rw [show _retry_gcs_operation behavior
          = retryGcsFrom behavior [0, 1, 2, 3] INITIAL_BACKOFF_SECONDS [] from rfl]
    simp only [retryGcsFrom, h0, h1, h2, h3, List.reverse_cons, List.reverse_nil,
      List.nil_append, List.cons_append]
  · intro α behavior es h
    rw [show _retry_gcs_operation behavior
          = retryGcsFrom behavior [0, 1, 2, 3] INITIAL_BACKOFF_SECONDS [] from rfl]
    simp only [retryGcsFrom, h 0, h 1, h 2, h 3, List.reverse_cons, List.reverse_nil,
      List.nil_append, List.cons_append]

/-- Witness for C6 at concrete behaviors: transient three times then
success, and always transient. -/
theorem C6_retry_executor_backoff_witness :
    _retry_gcs_operation behTransientThenOk =
        ⟨4, [INITIAL_BACKOFF_SECONDS, INITIAL_BACKOFF_SECONDS * 2,
             INITIAL_BACKOFF_SECONDS * 2 * 2], .ok 7⟩ ∧
      _retry_gcs_operation behAlwaysTransient =
        ⟨4, [INITIAL_BACKOFF_SECONDS, INITIAL_BACKOFF_SECONDS * 2,
             INITIAL_BACKOFF_SECONDS * 2 * 2], .error (esAlwaysTransient 3)⟩ :=
  ⟨C6_retry_executor_backoff.2.1 Nat behTransientThenOk _ _ _ 7 rfl rfl rfl rfl,
   C6_retry_executor_backoff.2.2 Nat behAlwaysTransient esAlwaysTransient (fun _ => rfl)⟩

/-- Claim C7 is false as stated: with the shutdown buffer already breached
(the deadline oracle constantly `false`), the Lister still submits one
listing task per prefix — task starts are not gated by the Deadline — even
though no objects are yielded. -/
theorem C7_claim_counterexample :
    (generate_eligible_blobs_timed (fun _ => false) dupBucket ["a", "b"] none 0).startedTasks =
        ["a", "b"] ∧
      (generate_eligible_blobs_timed (fun _ => false) dupBucket ["a", "b"] none 0).startedTasks ≠
        [] ∧
      (generate_eligible_blobs_timed (fun _ => false) dupBucket ["a", "b"] none 0).yielded =
        [] := by
  decide

/-- Claim C7 amended: the Lister consults the Deadline before processing
each candidate object — a failed poll abandons the listing, and with the
buffer breached throughout nothing is yielded — but the per-prefix listing
tasks are all submitted up front without consulting the Deadline. -/
theorem C7_deadline_gates_yields_not_task_starts :
    (∀ (sc : Nat → Bool) (bucket : List Blob) (ps : List String)
        (minAge : Option Int) (now : Int),
        ps ≠ [""] →
        (generate_eligible_blobs_timed sc bucket ps minAge now).startedTasks = ps) ∧
    (∀ (sc : Nat → Bool) (ps : List String) (minAge : Option Int) (now : Int)
        (k : Nat) (blobs : List Blob),
        sc k = false →
        (filter_blobs sc ps minAge now k blobs).2 = []) ∧
    (∀ (sc : Nat → Bool) (bucket : List Blob) (ps : List String)
        (minAge : Option Int) (now : Int),
        (∀ n, sc n = false) →
        (generate_eligible_blobs_timed sc bucket ps minAge now).yielded = []) := by
  refine ⟨?_, filter_blobs_abandons, ?_⟩
  · intro sc bucket ps minAge now h
    simp [generate_eligible_blobs_timed, h]
  · intro sc bucket ps minAge now h
    by_cases hps : ps = [""]
    · simp [generate_eligible_blobs_timed, hps,
        filter_blobs_abandons sc [""] minAge now 0 _ (h 0)]
    · simp [generate_eligible_blobs_timed, hps,
        listerStep_foldl_nil sc bucket ps minAge now h ps (0, [])]

/-- Witness for the amended C7 at a concrete breached-deadline run. -/
theorem C7_deadline_gates_yields_not_task_starts_witness :
    (generate_eligible_blobs_timed (fun _ => false) dupBucket ["a", "b"] none 0).startedTasks =
        ["a", "b"] ∧
      (filter_blobs (fun _ => false) ["a", "b"] none 0 0 dupBucket).2 = [] ∧
      (generate_eligible_blobs_timed (fun _ => false) dupBucket ["a", "b"] none 0).yielded =
        [] :=
  ⟨C7_deadline_gates_yields_not_task_starts.1 (fun _ => false) dupBucket ["a", "b"] none 0
      (by decide),
   C7_deadline_gates_yields_not_task_starts.2.1 (fun _ => false) ["a", "b"] none 0 0 dupBucket
      rfl,
   C7_deadline_gates_yields_not_task_starts.2.2 (fun _ => false) dupBucket ["a", "b"] none 0
      (fun _ => rfl)⟩

/-- Claim C8: the eligibility filter keeps a metadata record iff all four
rules pass — no folder placeholder, prefix match (unless match-all
sentinel), age rule, and exact (case-sensitive) storage-tier match. -/
theorem C8_is_eligible_iff_four_rules (ps : List String) (minAge : Option Int)
    (now : Int) (b : Blob) :
    keepBlob ps minAge now b =
      (spec_rule1 b && spec_rule2 ps b && spec_rule3 minAge now b && spec_rule4 b) := by
  rcases b with ⟨name, updated, cls⟩
  simp only [keepBlob, spec_rule1, spec_rule2, spec_rule3, spec_rule4]
  rcases minAge with _ | d <;> rcases updated with _ | u <;>
    split_ifs <;> simp_all

/-- Claim C9: an age threshold of at most 90 days (the sanity floor) is
silently ignored — the parsed filter is `none`, eligibility does not
depend on the last-modified timestamp at all — and only thresholds
strictly greater than 90 are honored. -/
theorem C9_age_floor_ignored (d : Int) (h : d ≤ 90) :
    computeMinAge (some d) = none ∧
      computeMinAge none = none ∧
      (∀ (ps : List String) (now : Int) (b : Blob) (u : Option Int),
          keepBlob ps (computeMinAge (some d)) now { b with updated := u } =
            keepBlob ps (computeMinAge (some d)) now b) ∧
      (∀ d' : Int, 90 < d' → computeMinAge (some d') = some d') := by
  have hnone : computeMinAge (some d) = none := by
    simp only [computeMinAge, MIN_AGE_DAYS_THRESHOLD]
    split_ifs <;> first | rfl | omega
  refine ⟨hnone, rfl, ?_, ?_⟩
  · intro ps now b u
    rcases b with ⟨name, u0, cls⟩
    simp [keepBlob, hnone]
  · intro d' hd'
    simp only [computeMinAge, MIN_AGE_DAYS_THRESHOLD]
    split_ifs <;> first | rfl | omega

/-- Witness for C9 at the concrete threshold 30: ignored by the parser,
and a never-modified object passes the age rule like a fresh one. -/
theorem C9_age_floor_ignored_witness :
    computeMinAge (some 30) = none ∧
      keepBlob [""] (computeMinAge (some 30)) 5 { coldBlob "x" with updated := none } =
        keepBlob [""] (computeMinAge (some 30)) 5 (coldBlob "x") :=
  ⟨(C9_age_floor_ignored 30 (by decide)).1,
   (C9_age_floor_ignored 30 (by decide)).2.2.1 [""] 5 (coldBlob "x") none⟩

/-- Claim C10: a successful TransferOutcome always has `copied = verified
= 1` with `deleted = 1` exactly when source deletion was requested (and
then performed); a failed outcome has all flags 0; hence every aggregated
run summary satisfies `copied = verified` and `deleted ≤ verified`. -/
theorem C10_outcome_flag_invariants :
    (∀ (w : TransferWorld) (ds : Bool) (c v d : Nat),
        (process_single_file_copy_or_move w ds).2 = .ok (true, c, v, d) →
        c = 1 ∧ v = 1 ∧
          (d = 1 ↔ ds = true ∧
            Event.deleteSourceBlob true ∈ (process_single_file_copy_or_move w ds).1)) ∧
    (∀ (w : TransferWorld) (ds : Bool) (c v d : Nat),
        (process_single_file_copy_or_move w ds).2 = .ok (false, c, v, d) →
        c = 0 ∧ v = 0 ∧ d = 0) ∧
    (∀ (runs : List (TransferWorld × Bool)),
        (aggregate_outcomes
            (runs.map fun r => (process_single_file_copy_or_move r.1 r.2).2)).copied =
          (aggregate_outcomes
            (runs.map fun r => (process_single_file_copy_or_move r.1 r.2).2)).verified ∧
        (aggregate_outcomes
            (runs.map fun r => (process_single_file_copy_or_move r.1 r.2).2)).deleted ≤
          (aggregate_outcomes
            (runs.map fun r => (process_single_file_copy_or_move r.1 r.2).2)).verified) := by
  refine ⟨?_, ?_, ?_⟩
  · intro w ds c v d h
    rcases w with ⟨se | (_ | _), ce | ⟨⟩, de | (_ | _), ee | ⟨⟩⟩ <;> cases ds <;>
      simp [process_single_file_copy_or_move, Prod.ext_iff] at h ⊢ <;> omega
  · intro w ds c v d h
    rcases w with ⟨se | (_ | _), ce | ⟨⟩, de | (_ | _), ee | ⟨⟩⟩ <;> cases ds <;>
      simp [process_single_file_copy_or_move, Prod.ext_iff] at h <;> omega
  · intro runs
    rw [aggregate_outcomes, List.foldl_map]
    exact aggStep_foldl_preserves runs ⟨0, 0, 0, 0⟩ rfl (Nat.le_refl 0)

/-- Witness for C10 at a concrete successful move with deletion requested,
a concrete benign skip, and a concrete two-object run. -/
theorem C10_outcome_flag_invariants_witness :
    (1 = 1 ∧ 1 = 1 ∧
        (1 = 1 ↔ true = true ∧
          Event.deleteSourceBlob true ∈
            (process_single_file_copy_or_move worldAllOk true).1)) ∧
      (0 = 0 ∧ 0 = 0 ∧ 0 = 0) :=
  ⟨C10_outcome_flag_invariants.1 worldAllOk true 1 1 1 rfl,
   C10_outcome_flag_invariants.2.1 worldVanished true 0 0 0 rfl⟩

end Archiver
